import Mathlib

/-!
Shallow embedding of the CS-330 final-project scene code
(`Source/SceneManager.cpp`, `Source/ViewManager.cpp`).

Float and double arithmetic of the C++ source is modelled exactly over `ℚ`
(and over `ℝ` for the trigonometric transform composer further below).
The OpenGL / GLFW / stb_image collaborators are external: their results
(decoded image channel counts, generated texture ids, pointer and scroll
samples) enter the model as explicit parameters, and the uniform writes the
code pushes into the shader backend are modelled as explicit event lists.
-/

/-- Uniform names declared in the anonymous namespace of SceneManager.cpp
(lines 36-43). -/
def g_ModelName : String := "model"

def g_ColorValueName : String := "objectColor"

def g_TextureValueName : String := "objectTexture"

def g_UseTextureName : String := "bUseTexture"

def g_UseLightingName : String := "bUseLighting"

/-- One texture-registry entry: `m_textureIDs[i]` holds the OpenGL texture
object id (`GLuint`, modelled as `Nat`) and the tag string. -/
structure TEXTURE_ID where
  ID : Nat
  tag : String
deriving DecidableEq, Repr

/-- One material-registry entry, as pushed by `DefineObjectMaterials`
(SceneManager.cpp lines 462-511): diffuse colour, specular colour,
shininess and tag.  `glm::vec3` is modelled as `ℚ × ℚ × ℚ`. -/
structure OBJECT_MATERIAL where
  diffuseColor : ℚ × ℚ × ℚ
  specularColor : ℚ × ℚ × ℚ
  shininess : ℚ
  tag : String
deriving DecidableEq, Repr

/-- A single write into the shader backend (`ShaderManager::set*Value`).
`setIntValue(name, bool)` converts the C++ bool to 0/1, hence `intW`
carries an `Int`. -/
inductive UniformWrite where
  | intW (name : String) (value : Int)
  | sampler2DW (name : String) (value : Int)
  | vec2W (name : String) (value : ℚ × ℚ)
  | vec3W (name : String) (value : ℚ × ℚ × ℚ)
  | vec4W (name : String) (value : ℚ × ℚ × ℚ × ℚ)
  | floatW (name : String) (value : ℚ)
deriving DecidableEq, Repr

/-- `SceneManager::CreateGLTexture` (SceneManager.cpp lines 76-140).
`decoded` is the result of the external `stbi_load` call (`none` when the
image could not be read, `some colorChannels` otherwise; pixel data is
irrelevant to registry state), and `textureID` is the id produced by the
external `glGenTextures`.  The registry (`m_textureIDs` array up to
`m_loadedTextures`) is modelled as the list of entries in registration
order; the successful path writes `m_textureIDs[m_loadedTextures]` and
increments the count (lines 129-131), i.e. appends.  Unsupported channel
counts return false at line 118 before the registration lines run. -/
def CreateGLTexture (decoded : Option Nat) (textureID : Nat) (tag : String)
    (textures : List TEXTURE_ID) : Bool × List TEXTURE_ID :=
  match decoded with
  | some colorChannels =>
    if colorChannels = 3 then
      (true, textures ++ [⟨textureID, tag⟩])
    else if colorChannels = 4 then
      (true, textures ++ [⟨textureID, tag⟩])
    else
      (false, textures)
  | none => (false, textures)

/-- The texture-unit capacity of the registry: the comments at
SceneManager.cpp lines 146 ("There are up to 16 slots") and 451-452
("there are a total of 16 available slots"), and the declared size of the
`m_textureIDs` array in SceneManager.h. -/
def maxTextureSlots : Nat := 16

/-- Registry contents after `n` successful 3-channel registrations starting
from the empty registry (texture ids and tags supplied by the caller are
irrelevant to the count). -/
def texturesAfterLoads (n : Nat) : List TEXTURE_ID :=
  (List.range n).foldl
    (fun textures i => (CreateGLTexture (some 3) i (toString i) textures).2) []

/-- The `GLuint`-to-`int` conversion performed by the assignment
`textureID = m_textureIDs[index].ID;` at SceneManager.cpp line 188: the
value wraps modulo 2^32 into [-2^31, 2^31). -/
def gluintToInt (n : Nat) : Int :=
  if n % 4294967296 < 2147483648 then ((n % 4294967296 : Nat) : Int)
  else ((n % 4294967296 : Nat) : Int) - 4294967296

/-- `SceneManager::FindTextureID` (SceneManager.cpp lines 178-196): linear
scan with an index and a found flag; on the first entry whose tag compares
equal the `GLuint` id is assigned to the `int` result (a wrapping
conversion, see `gluintToInt`), initialised to -1. -/
def FindTextureID : List TEXTURE_ID → String → Int
  | [], _ => -1
  | e :: rest, tag =>
    if e.tag = tag then gluintToInt e.ID else FindTextureID rest tag

/-- Loop body of `SceneManager::FindTextureSlot` (SceneManager.cpp lines
210-219), carrying the running `index` counter explicitly. -/
def FindTextureSlotAux (tag : String) : List TEXTURE_ID → Nat → Int
  | [], _ => -1
  | e :: rest, index =>
    if e.tag = tag then (index : Int) else FindTextureSlotAux tag rest (index + 1)

/-- `SceneManager::FindTextureSlot` (SceneManager.cpp lines 204-222):
first-match linear search returning the slot index, -1 when absent. -/
def FindTextureSlot (textures : List TEXTURE_ID) (tag : String) : Int :=
  FindTextureSlotAux tag textures 0

/-- Scan loop of `SceneManager::FindMaterial` (SceneManager.cpp lines
237-252): on the first tag match the diffuse colour, specular colour and
shininess (but not the tag) of the entry are copied into the out-parameter
`material`; otherwise the out-parameter is untouched. -/
def FindMaterialScan (tag : String) : List OBJECT_MATERIAL → OBJECT_MATERIAL → OBJECT_MATERIAL
  | [], material => material
  | m :: rest, material =>
    if m.tag = tag then
      { material with
        diffuseColor := m.diffuseColor
        specularColor := m.specularColor
        shininess := m.shininess }
    else
      FindMaterialScan tag rest material

/-- `SceneManager::FindMaterial` (SceneManager.cpp lines 230-255): returns
false immediately when `m_objectMaterials` is empty (lines 232-235), and
otherwise runs the scan loop and returns true (line 254) whether or not a
tag matched. -/
def FindMaterial (tag : String) (materials : List OBJECT_MATERIAL)
    (material : OBJECT_MATERIAL) : Bool × OBJECT_MATERIAL :=
  if materials = [] then
    (false, material)
  else
    (true, FindMaterialScan tag materials material)

/-- `SceneManager::SetShaderColor` (SceneManager.cpp lines 301-320):
guarded by `NULL != m_pShaderManager` (`shaderPresent`); when present it
writes `bUseTexture := false` (0) and the colour vector, otherwise nothing.
The result is `some` of the performed writes; `none` is reserved for a null
dereference, which this guarded setter can never produce. -/
def SetShaderColor (shaderPresent : Bool) (r g b a : ℚ) :
    Option (List UniformWrite) :=
  if shaderPresent then
    some [.intW g_UseTextureName 0, .vec4W g_ColorValueName (r, g, b, a)]
  else
    some []

/-- `SceneManager::SetShaderTexture` (SceneManager.cpp lines 328-339):
guarded by the null check; when present it writes `bUseTexture := true` (1)
and then the slot resolved by `FindTextureSlot` (initialised to -1) into
the sampler uniform. -/
def SetShaderTexture (shaderPresent : Bool) (textures : List TEXTURE_ID)
    (textureTag : String) : Option (List UniformWrite) :=
  if shaderPresent then
    some [.intW g_UseTextureName 1,
          .sampler2DW g_TextureValueName (FindTextureSlot textures textureTag)]
  else
    some []

/-- `SceneManager::SetTextureUVScale` (SceneManager.cpp lines 347-353):
guarded by the null check; writes the UV scale vector. -/
def SetTextureUVScale (shaderPresent : Bool) (u v : ℚ) :
    Option (List UniformWrite) :=
  if shaderPresent then
    some [.vec2W "UVscale" (u, v)]
  else
    some []

/-- Default-constructed `OBJECT_MATERIAL material;` local of
`SetShaderMaterial` (SceneManager.cpp line 366); in C++ the `shininess`
field is actually indeterminate (the struct has no initialiser) — no claim
below depends on these values. -/
def defaultMaterial : OBJECT_MATERIAL := ⟨(0, 0, 0), (0, 0, 0), 0, ""⟩

/-- `SceneManager::SetShaderMaterial` (SceneManager.cpp lines 361-377):
checks only that the material registry is non-empty, calls `FindMaterial`,
and when that returns true performs three shader writes through
`m_pShaderManager` WITHOUT any null check — a null shader-manager reference
is dereferenced there, modelled as `none`. -/
def SetShaderMaterial (shaderPresent : Bool) (materials : List OBJECT_MATERIAL)
    (materialTag : String) : Option (List UniformWrite) :=
  if materials.length > 0 then
    let r := FindMaterial materialTag materials defaultMaterial
    if r.1 = true then
      if shaderPresent then
        some [.vec3W "material.diffuseColor" r.2.diffuseColor,
              .vec3W "material.specularColor" r.2.specularColor,
              .floatW "material.shininess" r.2.shininess]
      else
        none
    else
      some []
  else
    some []

/-- Pacifier material pushed by `DefineObjectMaterials`
(SceneManager.cpp lines 465-470). -/
def pacifierMaterial : OBJECT_MATERIAL :=
  ⟨(1, 0.85, 0.2), (0.8, 0.7, 0.3), 32, "pacifier_material"⟩

/-- Floor material pushed by `DefineObjectMaterials`
(SceneManager.cpp lines 473-478). -/
def floorMaterial : OBJECT_MATERIAL :=
  ⟨(0.7, 0.7, 0.7), (0.3, 0.3, 0.3), 2, "floor_material"⟩

/-- `ViewManager::Mouse_Scroll_Wheel_Callback` (ViewManager.cpp lines
163-176) acting on the `cameraSpeed` global: multiply by 1.1 on scroll up,
by 0.9 on scroll down, then clamp below at 0.1 and above at 10.0. -/
def Mouse_Scroll_Wheel_Callback (cameraSpeed : ℚ) (yScrollDistance : ℚ) : ℚ :=
  let s :=
    if yScrollDistance > 0 then cameraSpeed * 1.1
    else if yScrollDistance < 0 then cameraSpeed * 0.9
    else cameraSpeed
  let s1 := if s < 0.1 then (0.1 : ℚ) else s
  if s1 > 10.0 then (10.0 : ℚ) else s1

/-- Camera speed after a session of scroll events, starting from the
initial `cameraSpeed = 1.0f` (ViewManager.cpp line 45). -/
def speedAfterScrolls (events : List ℚ) : ℚ :=
  events.foldl Mouse_Scroll_Wheel_Callback 1

/-- Pointer-tracking globals of ViewManager.cpp lines 32-34. -/
structure MouseState where
  gLastX : ℚ
  gLastY : ℚ
  gFirstMouse : Bool
deriving DecidableEq, Repr

/-- Initial pointer state: `gLastX = WINDOW_WIDTH / 2`, `gLastY =
WINDOW_HEIGHT / 2`, `gFirstMouse = true` (ViewManager.cpp lines 22-34). -/
def initialMouseState : MouseState := ⟨1000 / 2, 800 / 2, true⟩

/-- `ViewManager::Mouse_Position_Callback` (ViewManager.cpp lines 133-155):
on the first sample the baseline is captured; offsets are then computed
against the stored last position (y inverted), the last position is
updated, and the offsets are forwarded to `ProcessMouseMovement`.  Returns
the new global state and the forwarded `(xOffset, yOffset)`. -/
def Mouse_Position_Callback (st : MouseState) (xMousePos yMousePos : ℚ) :
    MouseState × ℚ × ℚ :=
  let st0 := if st.gFirstMouse then ⟨xMousePos, yMousePos, false⟩ else st
  let xOffset := xMousePos - st0.gLastX
  let yOffset := st0.gLastY - yMousePos
  (⟨xMousePos, yMousePos, st0.gFirstMouse⟩, xOffset, yOffset)

/-- A `glm::mat4`, viewed as the mathematical 4×4 matrix it represents
(glm stores columns, so glm entry `M[c][r]` is row `r`, column `c` here);
`glm::mat4 * glm::mat4` is ordinary matrix multiplication. -/
abbrev Mat4 := Matrix (Fin 4) (Fin 4) ℝ

/-- The `glm::radians` degree-to-radian conversion used by
`SetTransformations` (SceneManager.cpp lines 281-283). -/
noncomputable def glmRadians (degrees : ℝ) : ℝ := degrees * (Real.pi / 180)

/-- `glm::scale(v)`: diagonal scaling matrix. -/
def glmScale (v : ℝ × ℝ × ℝ) : Mat4 :=
  !![v.1, 0, 0, 0;
     0, v.2.1, 0, 0;
     0, 0, v.2.2, 0;
     0, 0, 0, 1]

/-- `glm::translate(v)`: translation matrix, translation in the last
column. -/
def glmTranslate (v : ℝ × ℝ × ℝ) : Mat4 :=
  !![1, 0, 0, v.1;
     0, 1, 0, v.2.1;
     0, 0, 1, v.2.2;
     0, 0, 0, 1]

/-- `glm::rotate(angle, v)` (gtx/transform, applied to the identity):
normalises the axis and builds the axis-angle rotation matrix from
`c = cos(angle)`, `s = sin(angle)` and `temp = (1 - c) * axis`, transcribed
here from glm's column-major layout into row/column form. -/
noncomputable def glmRotate (angle : ℝ) (v : ℝ × ℝ × ℝ) : Mat4 :=
  let c := Real.cos angle
  let s := Real.sin angle
  let len := Real.sqrt (v.1 * v.1 + v.2.1 * v.2.1 + v.2.2 * v.2.2)
  let ax := v.1 / len
  let ay := v.2.1 / len
  let az := v.2.2 / len
  let tx := (1 - c) * ax
  let ty := (1 - c) * ay
  let tz := (1 - c) * az
  !![c + tx * ax, ty * ax - s * az, tz * ax + s * ay, 0;
     tx * ay + s * az, c + ty * ay, tz * ay - s * ax, 0;
     tx * az - s * ay, ty * az + s * ax, c + tz * az, 0;
     0, 0, 0, 1]

/-- The model matrix built by `SceneManager::SetTransformations`
(SceneManager.cpp lines 270-287): scale, the three axis rotations from
degree angles, translation, composed as
`translation * rotationZ * rotationY * rotationX * scale`. -/
noncomputable def composeTransform (scaleXYZ : ℝ × ℝ × ℝ)
    (XrotationDegrees YrotationDegrees ZrotationDegrees : ℝ)
    (positionXYZ : ℝ × ℝ × ℝ) : Mat4 :=
  let scale := glmScale scaleXYZ
  let rotationX := glmRotate (glmRadians XrotationDegrees) (1, 0, 0)
  let rotationY := glmRotate (glmRadians YrotationDegrees) (0, 1, 0)
  let rotationZ := glmRotate (glmRadians ZrotationDegrees) (0, 0, 1)
  let translation := glmTranslate positionXYZ
  translation * rotationZ * rotationY * rotationX * scale

/-- `SceneManager::SetTransformations` (SceneManager.cpp lines 263-293):
the model matrix is composed unconditionally; the write of the `model`
uniform is guarded by `NULL != m_pShaderManager`. -/
noncomputable def SetTransformations (shaderPresent : Bool)
    (scaleXYZ : ℝ × ℝ × ℝ)
    (XrotationDegrees YrotationDegrees ZrotationDegrees : ℝ)
    (positionXYZ : ℝ × ℝ × ℝ) : Option (List (String × Mat4)) :=
  let modelView := composeTransform scaleXYZ
    XrotationDegrees YrotationDegrees ZrotationDegrees positionXYZ
  if shaderPresent then some [(g_ModelName, modelView)] else some []

/-- The standard rotation matrix about the X axis, the spec's `RotationX`
(spec section 4.2). -/
noncomputable def rotationMatrixX (θ : ℝ) : Mat4 :=
  !![1, 0, 0, 0;
     0, Real.cos θ, -Real.sin θ, 0;
     0, Real.sin θ, Real.cos θ, 0;
     0, 0, 0, 1]

/-- The standard rotation matrix about the Y axis, the spec's `RotationY`
(spec section 4.2). -/
noncomputable def rotationMatrixY (θ : ℝ) : Mat4 :=
  !![Real.cos θ, 0, Real.sin θ, 0;
     0, 1, 0, 0;
     -Real.sin θ, 0, Real.cos θ, 0;
     0, 0, 0, 1]

/-- The standard rotation matrix about the Z axis, the spec's `RotationZ`
(spec section 4.2). -/
noncomputable def rotationMatrixZ (θ : ℝ) : Mat4 :=
  !![Real.cos θ, -Real.sin θ, 0, 0;
     Real.sin θ, Real.cos θ, 0, 0;
     0, 0, 1, 0;
     0, 0, 0, 1]

/-- The `SetTransformations` call staged for the jam base box draw inside
`SceneManager::RenderJam` (SceneManager.cpp lines 1343-1371): scale
`(6, 1, 6)`, rotations `(0, -15, 0)` degrees, authored local position
`(0, 0.50, 0)` shifted by the sub-object origin offset
`(Xpos, Ypos, Zpos)` (line 1354).  `RenderScene` passes the offset
`(9.0, 0.001, -4.0)` (line 590). -/
noncomputable def jamBaseBoxModel (Xpos Ypos Zpos : ℝ) : Mat4 :=
  composeTransform (6, 1, 6) 0 (-15) 0 (0 + Xpos, 0.50 + Ypos, 0 + Zpos)

/-! ## Helper lemmas -/

lemma gluintToInt_eq_cast (n : Nat) (h : n < 2147483648) :
    gluintToInt n = (n : Int) := by
  unfold gluintToInt
  rw [Nat.mod_eq_of_lt (by omega)]
  rw [if_pos h]

lemma FindTextureID_eq_neg_one_iff (l : List TEXTURE_ID) (tag : String)
    (hID : ∀ e ∈ l, e.ID < 2147483648) :
    FindTextureID l tag = -1 ↔ ∀ e ∈ l, e.tag ≠ tag := by
  induction l with
  | nil => simp [FindTextureID]
  | cons e rest ih =>
    have hIDe : e.ID < 2147483648 := hID e (List.mem_cons_self e rest)
    have hIDrest : ∀ x ∈ rest, x.ID < 2147483648 :=
      fun x hx => hID x (List.mem_cons_of_mem e hx)
    by_cases h : e.tag = tag
    · constructor
      · intro hid
        exfalso
        have hv : FindTextureID (e :: rest) tag = gluintToInt e.ID := by
          simp [FindTextureID, h]
        rw [hv, gluintToInt_eq_cast e.ID hIDe] at hid
        omega
      · intro hall
        exact absurd h (hall e (List.mem_cons_self e rest))
    · simp [FindTextureID, h, ih hIDrest]

lemma FindTextureSlotAux_neg_iff (tag : String) :
    ∀ (l : List TEXTURE_ID) (index : Nat),
      FindTextureSlotAux tag l index = -1 ↔ ∀ e ∈ l, e.tag ≠ tag := by
  intro l
  induction l with
  | nil => intro index; simp [FindTextureSlotAux]
  | cons e rest ih =>
    intro index
    by_cases h : e.tag = tag
    · constructor
      · intro hid
        exfalso
        have hv : FindTextureSlotAux tag (e :: rest) index = (index : Int) := by
          simp [FindTextureSlotAux, h]
        rw [hv] at hid
        omega
      · intro hall
        exact absurd h (hall e (List.mem_cons_self e rest))
    · simp [FindTextureSlotAux, h, ih]

lemma FindTextureSlotAux_found (tag : String) :
    ∀ (l : List TEXTURE_ID) (index : Nat),
      (∀ e ∈ l, e.ID < 2147483648) → FindTextureSlotAux tag l index ≠ -1 →
      ∃ j : Nat, FindTextureSlotAux tag l index = ((index + j : Nat) : Int) ∧
        (l[j]?).map (fun e => (e.ID : Int)) = some (FindTextureID l tag) := by
  intro l
  induction l with
  | nil => intro index _ h; simp [FindTextureSlotAux] at h
  | cons e rest ih =>
    intro index hID h
    by_cases he : e.tag = tag
    · refine ⟨0, ?_, ?_⟩
      · simp [FindTextureSlotAux, he]
      · simp [FindTextureID, he,
          gluintToInt_eq_cast e.ID (hID e (List.mem_cons_self e rest))]
    · have hIDrest : ∀ x ∈ rest, x.ID < 2147483648 :=
        fun x hx => hID x (List.mem_cons_of_mem e hx)
      have h2 : FindTextureSlotAux tag rest (index + 1) ≠ -1 := by
        simpa [FindTextureSlotAux, he] using h
      obtain ⟨j, hj1, hj2⟩ := ih (index + 1) hIDrest h2
      refine ⟨j + 1, ?_, ?_⟩
      · simp only [FindTextureSlotAux, he, if_neg he]
        rw [hj1]
        push_cast
        ring
      · simpa [FindTextureID, he] using hj2

lemma FindMaterialScan_no_match (tag : String) (material : OBJECT_MATERIAL) :
    ∀ l : List OBJECT_MATERIAL, (∀ e ∈ l, e.tag ≠ tag) →
      FindMaterialScan tag l material = material := by
  intro l
  induction l with
  | nil => intro _; rfl
  | cons m rest ih =>
    intro h
    have hm : m.tag ≠ tag := h m (List.mem_cons_self m rest)
    simp only [FindMaterialScan, if_neg hm]
    exact ih fun e he => h e (List.mem_cons_of_mem m he)

lemma Mouse_Scroll_Wheel_Callback_mem (s y : ℚ) :
    0.1 ≤ Mouse_Scroll_Wheel_Callback s y ∧ Mouse_Scroll_Wheel_Callback s y ≤ 10 := by
  unfold Mouse_Scroll_Wheel_Callback
  dsimp only
  split_ifs <;> constructor <;> norm_num at * <;> linarith

lemma foldl_scroll_mem :
    ∀ (events : List ℚ) (s : ℚ), 0.1 ≤ s → s ≤ 10 →
      0.1 ≤ events.foldl Mouse_Scroll_Wheel_Callback s ∧
        events.foldl Mouse_Scroll_Wheel_Callback s ≤ 10 := by
  intro events
  induction events with
  | nil => intro s h1 h2; exact ⟨h1, h2⟩
  | cons e rest ih =>
    intro s _ _
    simp only [List.foldl_cons]
    exact ih _ (Mouse_Scroll_Wheel_Callback_mem s e).1 (Mouse_Scroll_Wheel_Callback_mem s e).2

/-! ## Claims -/

/-- C1: for every material-registry state and every tag, `FindMaterial`
returns true iff the registry is non-empty (even when no entry's tag
matches), and when no entry matches, the material out-parameter is left
unmodified. -/
theorem FindMaterial_nonempty_found (tag : String)
    (materials : List OBJECT_MATERIAL) (material : OBJECT_MATERIAL) :
    ((FindMaterial tag materials material).1 = true ↔ materials ≠ []) ∧
    ((∀ e ∈ materials, e.tag ≠ tag) →
      (FindMaterial tag materials material).2 = material) := by
  constructor
  · by_cases h : materials = [] <;> simp [FindMaterial, h]
  · intro h
    by_cases hm : materials = []
    · simp [FindMaterial, hm]
    · simp [FindMaterial, hm, FindMaterialScan_no_match tag material materials h]

/-- Witness for C1: a one-entry registry with no matching tag still reports
found and leaves the out-parameter untouched. -/
theorem FindMaterial_nonempty_found_witness :
    (FindMaterial "glass" [pacifierMaterial] floorMaterial).1 = true ∧
    (FindMaterial "glass" [pacifierMaterial] floorMaterial).2 = floorMaterial :=
  ⟨(FindMaterial_nonempty_found "glass" [pacifierMaterial] floorMaterial).1.mpr
      (by decide),
    (FindMaterial_nonempty_found "glass" [pacifierMaterial] floorMaterial).2
      (by decide)⟩

/-- C2 (amended): with a null shader-manager reference,
`SetTransformations`, `SetShaderColor`, `SetShaderTexture` and
`SetTextureUVScale` are no-ops for all argument values and registry states;
`SetShaderMaterial` is a no-op only when the material registry is empty and
otherwise dereferences the null reference (modelled as `none`). -/
theorem null_shader_setters :
    (∀ (s : ℝ × ℝ × ℝ) (xr yr zr : ℝ) (p : ℝ × ℝ × ℝ),
      SetTransformations false s xr yr zr p = some []) ∧
    (∀ r g b a : ℚ, SetShaderColor false r g b a = some []) ∧
    (∀ (textures : List TEXTURE_ID) (tag : String),
      SetShaderTexture false textures tag = some []) ∧
    (∀ u v : ℚ, SetTextureUVScale false u v = some []) ∧
    (∀ (materials : List OBJECT_MATERIAL) (tag : String),
      SetShaderMaterial false materials tag =
        if materials = [] then some [] else none) := by
  refine ⟨fun _ _ _ _ _ => rfl, fun _ _ _ _ => rfl, fun _ _ => rfl,
    fun _ _ => rfl, ?_⟩
  intro materials tag
  cases materials with
  | nil => rfl
  | cons m rest => simp [SetShaderMaterial, FindMaterial]

/-- Counterexample to C2 as stated: `SetShaderMaterial` with a null shader
reference and a non-empty registry is a null dereference, not a no-op. -/
theorem SetShaderMaterial_null_crash :
    SetShaderMaterial false [pacifierMaterial] "pacifier_material" = none ∧
    SetShaderMaterial false [pacifierMaterial] "pacifier_material" ≠ some [] := by
  constructor
  · decide
  · decide

/-- C3 (evaluation at the failing input): 17 successful `CreateGLTexture`
calls take the loaded-texture count to 17, past the 16-slot capacity; the
17th registration is accepted, not rejected. -/
theorem CreateGLTexture_cap_overflow :
    (texturesAfterLoads 17).length = 17 ∧
    maxTextureSlots < (texturesAfterLoads 17).length ∧
    (CreateGLTexture (some 3) 16 "t" (texturesAfterLoads 16)).1 = true := by
  refine ⟨by decide, by decide, by decide⟩

/-- C4: when decoding fails or the channel count is neither 3 nor 4,
`CreateGLTexture` returns false and leaves the registry unchanged. -/
theorem CreateGLTexture_failure_preserves_registry
    (decoded : Option Nat) (textureID : Nat) (tag : String)
    (textures : List TEXTURE_ID)
    (h : decoded = none ∨ ∃ ch, decoded = some ch ∧ ch ≠ 3 ∧ ch ≠ 4) :
    CreateGLTexture decoded textureID tag textures = (false, textures) := by
  rcases h with h | ⟨ch, h, h3, h4⟩
  · subst h
    rfl
  · subst h
    simp [CreateGLTexture, h3, h4]

/-- Witness for C4: a 2-channel image is rejected with the registry
untouched. -/
theorem CreateGLTexture_failure_preserves_registry_witness :
    CreateGLTexture (some 2) 7 "Floor" [⟨1, "t"⟩] = (false, [⟨1, "t"⟩]) :=
  CreateGLTexture_failure_preserves_registry (some 2) 7 "Floor" [⟨1, "t"⟩]
    (Or.inr ⟨2, rfl, by decide, by decide⟩)

/-- C6: starting from 1.0, the camera speed multiplier stays within
[0.1, 10.0] after any sequence of scroll events; in particular 200
scroll-up ticks never exceed 10.0 and 200 scroll-down ticks never drop
below 0.1. -/
theorem cameraSpeed_clamped :
    (∀ events : List ℚ,
      0.1 ≤ speedAfterScrolls events ∧ speedAfterScrolls events ≤ 10) ∧
    speedAfterScrolls (List.replicate 200 1) ≤ 10 ∧
    0.1 ≤ speedAfterScrolls (List.replicate 200 (-1)) := by
  have main : ∀ events : List ℚ,
      0.1 ≤ speedAfterScrolls events ∧ speedAfterScrolls events ≤ 10 :=
    fun events => foldl_scroll_mem events 1 (by norm_num) (by norm_num)
  exact ⟨main, (main _).2, (main _).1⟩

/-- C7: for a tag that was never registered, `FindTextureSlot` returns -1,
and `SetShaderTexture` (with an active shader) still turns the use-texture
flag on and writes -1 into the sampler uniform, reporting no error. -/
theorem SetShaderTexture_unregistered (textures : List TEXTURE_ID)
    (tag : String) (h : ∀ e ∈ textures, e.tag ≠ tag) :
    FindTextureSlot textures tag = -1 ∧
    SetShaderTexture true textures tag =
      some [.intW g_UseTextureName 1, .sampler2DW g_TextureValueName (-1)] := by
  have hs : FindTextureSlot textures tag = -1 :=
    (FindTextureSlotAux_neg_iff tag textures 0).mpr h
  exact ⟨hs, by simp [SetShaderTexture, hs]⟩

/-- Witness for C7: the tag "Wall" is absent from a one-entry registry. -/
theorem SetShaderTexture_unregistered_witness :
    FindTextureSlot [⟨7, "Floor"⟩] "Wall" = -1 ∧
    SetShaderTexture true [⟨7, "Floor"⟩] "Wall" =
      some [.intW g_UseTextureName 1, .sampler2DW g_TextureValueName (-1)] :=
  SetShaderTexture_unregistered [⟨7, "Floor"⟩] "Wall" (by decide)

/-- C8: the first pointer sample of a session captures the baseline and
forwards offsets (0, 0); every later sample forwards
`(x - lastX, lastY - y)` and stores the new last position. -/
theorem Mouse_Position_Callback_spec :
    (∀ x y : ℚ,
      Mouse_Position_Callback initialMouseState x y = (⟨x, y, false⟩, 0, 0)) ∧
    (∀ lx ly x y : ℚ,
      Mouse_Position_Callback ⟨lx, ly, true⟩ x y = (⟨x, y, false⟩, 0, 0)) ∧
    (∀ lx ly x y : ℚ,
      Mouse_Position_Callback ⟨lx, ly, false⟩ x y =
        (⟨x, y, false⟩, x - lx, ly - y)) := by
  refine ⟨?_, ?_, ?_⟩ <;> intros <;>
    simp [Mouse_Position_Callback, initialMouseState]

/-- Counterexample to C10 as stated: an entry whose `GLuint` ID is
4294967295 wraps to the -1 not-found sentinel in `FindTextureID`, while
`FindTextureSlot` still returns its index, so the claimed iff fails on
that registry state. -/
theorem FindTextureID_wrap_counterexample :
    FindTextureID [⟨4294967295, "a"⟩] "a" = -1 ∧
    FindTextureSlot [⟨4294967295, "a"⟩] "a" = 0 ∧
    ¬(FindTextureID [⟨4294967295, "a"⟩] "a" = -1 ↔
        FindTextureSlot [⟨4294967295, "a"⟩] "a" = -1) := by
  refine ⟨by decide, by decide, by decide⟩

/-- C10 (amended): on registries whose entry IDs are below 2^31 (so the
`GLuint`-to-`int` assignment of line 188 is lossless), `FindTextureID` and
`FindTextureSlot` agree: both return -1 on the same registries and tags,
and otherwise `FindTextureID` returns the ID field of the entry at index
`FindTextureSlot`. -/
theorem FindTextureID_FindTextureSlot_agree (textures : List TEXTURE_ID)
    (tag : String) (hID : ∀ e ∈ textures, e.ID < 2147483648) :
    (FindTextureID textures tag = -1 ↔ FindTextureSlot textures tag = -1) ∧
    (FindTextureSlot textures tag ≠ -1 →
      (textures[(FindTextureSlot textures tag).toNat]?).map
          (fun e => (e.ID : Int)) =
        some (FindTextureID textures tag)) := by
  constructor
  · rw [FindTextureID_eq_neg_one_iff textures tag hID, FindTextureSlot,
      FindTextureSlotAux_neg_iff]
  · intro h
    obtain ⟨j, hj1, hj2⟩ := FindTextureSlotAux_found tag textures 0 hID h
    have hslot : FindTextureSlot textures tag = (j : Int) := by
      rw [FindTextureSlot, hj1]
      norm_num
    rw [hslot]
    simpa using hj2

/-- Witness for C10: a duplicate-tag registry where the first match wins. -/
theorem FindTextureID_FindTextureSlot_agree_witness :
    (FindTextureID [⟨5, "a"⟩, ⟨9, "a"⟩] "a" = -1 ↔
      FindTextureSlot [⟨5, "a"⟩, ⟨9, "a"⟩] "a" = -1) ∧
    (([⟨5, "a"⟩, ⟨9, "a"⟩] :
        List TEXTURE_ID)[(FindTextureSlot [⟨5, "a"⟩, ⟨9, "a"⟩] "a").toNat]?).map
        (fun e => (e.ID : Int)) =
      some (FindTextureID [⟨5, "a"⟩, ⟨9, "a"⟩] "a") :=
  ⟨(FindTextureID_FindTextureSlot_agree [⟨5, "a"⟩, ⟨9, "a"⟩] "a"
      (by decide)).1,
    (FindTextureID_FindTextureSlot_agree [⟨5, "a"⟩, ⟨9, "a"⟩] "a"
      (by decide)).2 (by decide)⟩

lemma glmRotate_unitX (θ : ℝ) : glmRotate θ (1, 0, 0) = rotationMatrixX θ := by
  ext i j
  fin_cases i <;> fin_cases j <;>
    norm_num [glmRotate, rotationMatrixX, Real.sqrt_one]

lemma glmRotate_unitY (θ : ℝ) : glmRotate θ (0, 1, 0) = rotationMatrixY θ := by
  ext i j
  fin_cases i <;> fin_cases j <;>
    norm_num [glmRotate, rotationMatrixY, Real.sqrt_one]

lemma glmRotate_unitZ (θ : ℝ) : glmRotate θ (0, 0, 1) = rotationMatrixZ θ := by
  ext i j
  fin_cases i <;> fin_cases j <;>
    norm_num [glmRotate, rotationMatrixZ, Real.sqrt_one]

lemma mul_col3 (M N : Mat4) (h0 : N 0 3 = 0) (h1 : N 1 3 = 0)
    (h2 : N 2 3 = 0) (h3 : N 3 3 = 1) (i : Fin 4) : (M * N) i 3 = M i 3 := by
  rw [Matrix.mul_apply, Fin.sum_univ_four, h0, h1, h2, h3]
  ring

lemma composeTransform_translation (s : ℝ × ℝ × ℝ) (xr yr zr : ℝ)
    (p : ℝ × ℝ × ℝ) :
    (composeTransform s xr yr zr p) 0 3 = p.1 ∧
    (composeTransform s xr yr zr p) 1 3 = p.2.1 ∧
    (composeTransform s xr yr zr p) 2 3 = p.2.2 := by
  simp only [composeTransform]
  refine ⟨?_, ?_, ?_⟩ <;>
    rw [mul_col3 _ _ rfl rfl rfl rfl, mul_col3 _ _ rfl rfl rfl rfl,
      mul_col3 _ _ rfl rfl rfl rfl, mul_col3 _ _ rfl rfl rfl rfl] <;>
    rfl

/-- C5: `SetTransformations` stages the model matrix
`Translation * RotationZ * RotationY * RotationX * Scale` — scale first,
then rotations about X, Y, Z, then translation — with every rotation angle
converted from degrees to radians. -/
theorem SetTransformations_composition (s : ℝ × ℝ × ℝ) (xr yr zr : ℝ)
    (p : ℝ × ℝ × ℝ) :
    SetTransformations true s xr yr zr p =
      some [(g_ModelName,
        glmTranslate p *
          rotationMatrixZ (zr * (Real.pi / 180)) *
          rotationMatrixY (yr * (Real.pi / 180)) *
          rotationMatrixX (xr * (Real.pi / 180)) *
          glmScale s)] := by
  simp only [SetTransformations, composeTransform, glmRadians,
    glmRotate_unitX, glmRotate_unitY, glmRotate_unitZ, if_true]

/-- C9: the jam-jar base box, authored at local position (0, 0.5, 0) and
rendered at the `RenderScene` origin offset (9, 0.001, -4), has a staged
model matrix whose translation component is exactly (9, 0.501, -4), the
componentwise sum. -/
theorem jamBaseBox_world_position :
    (jamBaseBoxModel 9 0.001 (-4)) 0 3 = 9 ∧
    (jamBaseBoxModel 9 0.001 (-4)) 1 3 = 0.501 ∧
    (jamBaseBoxModel 9 0.001 (-4)) 2 3 = -4 ∧
    ((0 : ℝ) + 9, (0.50 : ℝ) + 0.001, (0 : ℝ) + -4) =
      ((9 : ℝ), 0.501, (-4 : ℝ)) := by
  obtain ⟨h0, h1, h2⟩ :=
    composeTransform_translation (6, 1, 6) 0 (-15) 0 (0 + 9, 0.50 + 0.001, 0 + -4)
  refine ⟨?_, ?_, ?_, by norm_num⟩
  · rw [jamBaseBoxModel, h0]
    norm_num
  · rw [jamBaseBoxModel, h1]
    norm_num
  · rw [jamBaseBoxModel, h2]
    norm_num
